import Mathlib

/-!
Verification of the NILU API client (`src/nilu/_NILUClient.py`).

The client is a thin composition of three concerns:
* `_stringify`: serializes named optional query parameters to a query string;
* `_flatten_column`: reshapes a pandas `DataFrame` by exploding a column of
  lists of records and splicing the records' fields in as top-level columns;
* the endpoint methods (`get_areas`, `get_stations`, `get_components`,
  `get_air_quality_index`, `get_timeseries`, `get_observations`), which build a
  path and query, perform one GET via `_get_url` (which calls
  `response.raise_for_status()` and decodes the JSON body with
  `pandas.DataFrame.from_records`), and optionally flatten one column.

The embedding below models pandas dataframes as an ordered list of column
names together with a list of rows (each row a list of cells positionally
aligned with the columns), and models the pandas / requests library calls the
source makes (`DataFrame.explode`, `DataFrame.drop`, column selection,
`DataFrame.from_records`, `pandas.concat(axis="columns")`,
`Response.raise_for_status`) by their documented semantics, with Python
exceptions made explicit as `Except` values.
-/

namespace Nilu

/-- A cell of a decoded-JSON table: a missing value (`NaN`), an opaque scalar
(numbers, strings and booleans are carried as their rendered text, which is all
the client ever does with them), a JSON object (an ordered list of key/value
fields, keys unique as in a Python `dict`), or a JSON list. -/
inductive Cell where
  | nan : Cell
  | scalar : String → Cell
  | obj : List (String × Cell) → Cell
  | list : List Cell → Cell

/-- The pandas `DataFrame` model: ordered column names and rows, each row a
list of cells positionally aligned with `cols`. -/
structure DF where
  cols : List String
  rows : List (List Cell)

/-- Python exceptions the modelled library calls can raise. `notModelled`
marks the one `from_records` branch whose real result — a frame with integer
column labels, built by silently tupling a leading string or list — falls
outside this model's string-labelled tables; no JSON-array response body and
no well-shaped flatten input reaches it. -/
inductive PyError where
  | keyError : String → PyError
  | httpError : Nat → PyError
  | typeError : PyError
  | attributeError : PyError
  | notModelled : PyError
deriving DecidableEq

/-- Field list of a cell, when the cell is a JSON object. -/
def Cell.objFields : Cell → Option (List (String × Cell))
  | .obj fs => some fs
  | _ => none

/-- Whether a cell is a JSON object (a record). -/
def Cell.isObj : Cell → Bool
  | .obj _ => true
  | _ => false

/-- Python `dict` lookup on an object's field list (keys are unique in a
Python `dict`; `find?` returns the first match). -/
def lookupField (fs : List (String × Cell)) (k : String) : Option Cell :=
  (fs.find? (fun p => p.1 == k)).map (·.2)

/-- Embeds `Series.explode` on one cell. pandas treats every iterable
non-string as list-like (`c_is_list_like` asks only for `__iter__`, excluding
`str`/`bytes`): a list cell produces one row per element, and a mapping cell
is likewise iterated, producing one row per key with the key string as the
resulting cell; an empty list-like (empty list or empty mapping) produces a
single missing-value row; strings, numbers and missing values are kept as a
single row unchanged. -/
def explodeCell : Cell → List Cell
  | .list [] => [.nan]
  | .list xs => xs
  | .obj [] => [.nan]
  | .obj fs => fs.map (fun p => .scalar p.1)
  | c => [c]

/-- Embeds `DataFrame.explode(column, ignore_index=True)`: raises `KeyError`
when the column is absent, otherwise replaces each row by one copy per element
of `explodeCell` of its cell in that column, the copies differing only in that
cell, with a fresh contiguous index. -/
def DF.explode (df : DF) (c : String) : Except PyError DF :=
  match df.cols.findIdx? (fun k => k == c) with
  | none => .error (.keyError c)
  | some i =>
    .ok ⟨df.cols, df.rows.flatMap (fun r => (explodeCell (r.getD i .nan)).map (fun e => r.set i e))⟩

/-- Removes from one row the cells at the positions of column `c`. -/
def dropRowCol (cols : List String) (c : String) (r : List Cell) : List Cell :=
  ((cols.zip r).filter (fun p => p.1 != c)).map (·.2)

/-- Embeds `DataFrame.drop(column, axis="columns")` with the default
`errors="raise"`: raises `KeyError` when the label is absent, otherwise
removes the labelled column (and its cells) from the table. -/
def DF.drop (df : DF) (c : String) : Except PyError DF :=
  if df.cols.contains c then
    .ok ⟨df.cols.filter (fun k => k != c), df.rows.map (dropRowCol df.cols c)⟩
  else .error (.keyError c)

/-- Embeds column selection `df[column]`: raises `KeyError` when the column is
absent, otherwise the list of that column's cells in row order. -/
def DF.getCol (df : DF) (c : String) : Except PyError (List Cell) :=
  match df.cols.findIdx? (fun k => k == c) with
  | none => .error (.keyError c)
  | some i => .ok (df.rows.map (fun r => r.getD i .nan))

/-- Accumulates keys in first-appearance order without duplicates, as pandas
does when collecting record keys into columns. -/
def addKeys (acc : List String) (ks : List String) : List String :=
  ks.foldl (fun a k => if a.contains k then a else a ++ [k]) acc

/-- Column names `DataFrame.from_records` derives from a list of records: the
union of the records' keys in order of first appearance. -/
def recordKeys (records : List Cell) : List String :=
  records.foldl (fun acc r => addKeys acc ((r.objFields.getD []).map (·.1))) []

/-- One record rendered over a fixed column list: the record's field for each
column, `NaN` where the record lacks the key. -/
def renderRecord (keys : List String) (c : Cell) : List Cell :=
  keys.map (fun k => (lookupField (c.objFields.getD []) k).getD .nan)

/-- Embeds `pandas.DataFrame.from_records` on a sequence of decoded values.
No elements give an empty frame. When the first element is a mapping, pandas
collects every element's keys (`x.keys()` in a generator), so the columns are
the union of the objects' keys in first-appearance order and each object
becomes one row (missing keys filled with `NaN`) — but any non-mapping
element (the `NaN` that `explode` leaves for an empty list, or a key string
it leaves for a bare mapping) has no `.keys` and makes that collection raise
`AttributeError`. When the first element is a float `NaN`, the last-ditch
`tuple(x)` conversion raises `TypeError`. When the first element is a string
or a list, real pandas raises nothing: it silently builds a frame with
integer column labels (a leading string is tupled into one character per
column); such frames cannot be carried by this model's string-labelled
tables, so reaching that branch is marked with the distinguished
`notModelled` value rather than asserted to raise. -/
def pd_from_records (records : List Cell) : Except PyError DF :=
  match records with
  | [] => .ok ⟨[], []⟩
  | r0 :: _ =>
    if r0.isObj then
      if records.all Cell.isObj then
        .ok ⟨recordKeys records, records.map (renderRecord (recordKeys records))⟩
      else .error .attributeError
    else
      match r0 with
      | .nan => .error .typeError
      | _ => .error .notModelled

/-- Pads a list of rows with all-`NaN` rows of width `w` up to `n` rows. -/
def padRows (n : Nat) (w : Nat) (rows : List (List Cell)) : List (List Cell) :=
  rows ++ List.replicate (n - rows.length) (List.replicate w .nan)

/-- Embeds `pandas.concat((a, b), axis="columns")` for two frames carrying
fresh contiguous indexes (which is how `_flatten_column` calls it): columns
are concatenated and rows are aligned by position, the shorter frame padded
with missing values. -/
def DF.hconcat (a b : DF) : DF :=
  let n := max a.rows.length b.rows.length
  ⟨a.cols ++ b.cols,
   (padRows n a.cols.length a.rows).zipWith (· ++ ·) (padRows n b.cols.length b.rows)⟩

/-- Embeds `_flatten_column(df, column)` from `src/nilu/_NILUClient.py`:

  try: df = df.explode(column, ignore_index=True)
  except KeyError: pass
  return pd.concat((df.drop(column, axis="columns"),
                    pd.DataFrame.from_records(df[column])), axis="columns")

The `try` suppresses only the `KeyError` of `explode`; the `drop`, the column
selection and `from_records` run outside it and their exceptions propagate.
`flattenConcat` is the final `return` expression, evaluated left to right as
Python does; `_flatten_column` is the `try`/`except` followed by it. -/
def flattenConcat (df1 : DF) (c : String) : Except PyError DF :=
  match df1.drop c with
  | .error e => .error e
  | .ok left =>
    match df1.getCol c with
    | .error e => .error e
    | .ok cells =>
      match pd_from_records cells with
      | .error e => .error e
      | .ok right => .ok (left.hconcat right)

/-- Embeds `_flatten_column(df, column)`; see `flattenConcat`. -/
def _flatten_column (df : DF) (c : String) : Except PyError DF :=
  flattenConcat (match df.explode c with
    | .ok d => d
    | .error _ => df) c

/-! ## Query parameters and `_stringify` -/

/-- A Python scalar value passed as a query parameter, together with how the
f-string `f"{k}={v}"` renders it (`str(v)`). -/
inductive PyVal where
  | str : String → PyVal
  | int : Int → PyVal
  | bool : Bool → PyVal
deriving DecidableEq

/-- Python `str()` of a query-parameter value, as interpolated by the
f-string in `_stringify`. -/
def PyVal.toStr : PyVal → String
  | .str s => s
  | .int n => toString n
  | .bool b => if b then "True" else "False"

/-- Embeds `_stringify(**parameters)`: the keyword arguments are an ordered
association of names to optional values (`None` modelled as `none`), and the
result is the comprehension

  "&".join([f"{k}={v}" for k, v in parameters.items() if v is not None]) -/
def _stringify (parameters : List (String × Option PyVal)) : String :=
  String.intercalate "&"
    (parameters.filterMap (fun kv => kv.2.map (fun v => kv.1 ++ "=" ++ v.toStr)))

/-- Embeds the query construction of `get_stations(area, utd)`:
`_stringify(area=area, utd=utd)` in keyword order. -/
def get_stations_query (area : Option String) (utd : Option Bool) : String :=
  _stringify [("area", area.map .str), ("utd", utd.map .bool)]

/-- Embeds the `components` preprocessing of `get_observations`:
`if components is not None: components = ";".join(components)`. -/
def obs_components_param (components : Option (List String)) : Option PyVal :=
  components.map (fun cs => .str (String.intercalate ";" cs))

/-- Embeds the query construction of `get_observations`:
`_stringify(components=..., showinvalid=showinvalid)` after the `components`
preprocessing. -/
def get_observations_query (components : Option (List String))
    (showinvalid : Option Bool) : String :=
  _stringify [("components", obs_components_param components),
              ("showinvalid", showinvalid.map .bool)]

/-! ## Date-like inputs and the observations path -/

/-- A point in time as carried by a `pandas.Timestamp` (sub-second precision
is irrelevant to this client and omitted). -/
structure Timestamp where
  year : Nat
  month : Nat
  day : Nat
  hour : Nat
  minute : Nat
  second : Nat
deriving DecidableEq

/-- A date-like argument accepted by `get_observations` for `fromtime` /
`totime`: a parseable calendar-date string, a `datetime.date` object, a
date-and-time string, or a timestamp object with a time of day. -/
inductive DateLike where
  | dateString (y m d : Nat) : DateLike
  | dateObject (y m d : Nat) : DateLike
  | timestampString (t : Timestamp) : DateLike
  | timestampObject (t : Timestamp) : DateLike
deriving DecidableEq

/-- Embeds `pandas.to_datetime` on a date-like argument, per its documented
behavior: date-only inputs parse to midnight of that calendar date, inputs
carrying a time of day keep it. -/
def to_datetime : DateLike → Timestamp
  | .dateString y m d => ⟨y, m, d, 0, 0, 0⟩
  | .dateObject y m d => ⟨y, m, d, 0, 0, 0⟩
  | .timestampString t => t
  | .timestampObject t => t

/-- Zero-pads the decimal rendering of `n` to width `w`. -/
def padNum (w : Nat) (n : Nat) : String :=
  let s := toString n
  String.mk (List.replicate (w - s.length) '0') ++ s

/-- Embeds `Timestamp.strftime("%Y-%m-%d")`. A `pandas.Timestamp` is bounded
to the years 1677–2262 (`pandas.Timestamp.min` / `.max`), so `%Y` is always a
four-digit year. -/
def Timestamp.strftimeYMD (t : Timestamp) : String :=
  padNum 4 t.year ++ "-" ++ padNum 2 t.month ++ "-" ++ padNum 2 t.day

/-- Whether a timestamp is within the documented `pandas.Timestamp` bounds
(years 1677–2262); `pandas.to_datetime` raises outside them. -/
def Timestamp.inPandasBounds (t : Timestamp) : Prop :=
  1677 ≤ t.year ∧ t.year ≤ 2262

/-- Embeds the path construction of `get_observations`:
`f"obs/historical/{fromtime}/{totime}/{station}"` after both date-like
arguments pass through `pd.to_datetime(...).strftime("%Y-%m-%d")`. -/
def get_observations_path (fromtime totime : DateLike) (station : String) : String :=
  "obs/historical/" ++ (to_datetime fromtime).strftimeYMD ++ "/"
    ++ (to_datetime totime).strftimeYMD ++ "/" ++ station

/-! ## HTTP and the endpoint operations -/

/-- The final HTTP response of the one GET an operation performs: its status
code and its JSON body decoded as an array of values. -/
structure HttpResponse where
  status : Nat
  body : List Cell

/-- Embeds `requests.Response.raise_for_status()`: raises `HTTPError` exactly
for client-error (4xx) and server-error (5xx) status codes. -/
def raise_for_status (r : HttpResponse) : Except PyError Unit :=
  if 400 ≤ r.status ∧ r.status < 600 then .error (.httpError r.status) else .ok ()

/-- Embeds `_get_url` applied to the response of the GET it performs:
`response.raise_for_status()` then
`pd.DataFrame.from_records(response.json())`. -/
def _get_url (r : HttpResponse) : Except PyError DF :=
  match raise_for_status r with
  | .error e => .error e
  | .ok _ => pd_from_records r.body

/-- Response processing of `get_areas`: `_get_url` alone. -/
def get_areas_resp (r : HttpResponse) : Except PyError DF := _get_url r

/-- Response processing of `get_stations`: `_get_url` alone. -/
def get_stations_resp (r : HttpResponse) : Except PyError DF := _get_url r

/-- Response processing of `get_components`: `_get_url` alone. -/
def get_components_resp (r : HttpResponse) : Except PyError DF := _get_url r

/-- Response processing of `get_timeseries`: `_get_url` alone. -/
def get_timeseries_resp (r : HttpResponse) : Except PyError DF := _get_url r

/-- Response processing of `get_air_quality_index`:
`_flatten_column(self._get_url(...), "aqis")`. -/
def get_air_quality_index_resp (r : HttpResponse) : Except PyError DF :=
  match _get_url r with
  | .error e => .error e
  | .ok df => _flatten_column df "aqis"

/-- Response processing of `get_observations`:
`_flatten_column(self._get_url(...), "values")`. -/
def get_observations_resp (r : HttpResponse) : Except PyError DF :=
  match _get_url r with
  | .error e => .error e
  | .ok df => _flatten_column df "values"

/-- Whether an operation's outcome is a raised `HTTPError`. -/
def isHttpFailure : Except PyError DF → Bool
  | .error (.httpError _) => true
  | _ => false

/-! ## An object-store model of `_flatten_column`, for the purity claim

A Python variable holds a reference to a dataframe object in a store. Each
library call the source makes (`DataFrame.explode` without `inplace`,
`DataFrame.drop` with its default `inplace=False`, column selection,
`DataFrame.from_records`, `pandas.concat`) returns a newly allocated frame,
so the traced version of `_flatten_column` only ever allocates. -/

/-- A store of dataframe objects; a reference is an index into it. -/
structure Store where
  frames : List DF

/-- Reads the object a reference designates. -/
def Store.read (s : Store) (r : Nat) : DF := s.frames.getD r ⟨[], []⟩

/-- Allocates a fresh object and returns its reference. -/
def Store.alloc (s : Store) (d : DF) : Store × Nat :=
  (⟨s.frames ++ [d]⟩, s.frames.length)

/-- The `pandas.concat` call traced over the store: it reads the two operand
objects and allocates a fresh result frame. -/
def concatAllocSt (s : Store) (leftRef rightRef : Nat) : Store × Nat :=
  s.alloc ((s.read leftRef).hconcat (s.read rightRef))

/-- The `return pd.concat(...)` expression of `_flatten_column` traced over
the object store, `df` being the value the local variable refers to: the
`drop` result, the `from_records` result and the `concat` result are each a
fresh allocation (none of these calls is an in-place operation), in the order
Python evaluates them; an uncaught exception aborts with the store as it
stands. -/
def flattenMergeSt (s : Store) (df : DF) (c : String) : Store × Except PyError Nat :=
  match df.drop c with
  | .error e => (s, .error e)
  | .ok left =>
    match df.getCol c with
    | .error e => ((s.alloc left).1, .error e)
    | .ok cells =>
      match pd_from_records cells with
      | .error e => ((s.alloc left).1, .error e)
      | .ok right =>
        ((concatAllocSt ((s.alloc left).1.alloc right).1 (s.alloc left).2
            ((s.alloc left).1.alloc right).2).1,
         .ok (concatAllocSt ((s.alloc left).1.alloc right).1 (s.alloc left).2
            ((s.alloc left).1.alloc right).2).2)

/-- The body of `_flatten_column` traced over the object store: the local
variable `df` starts as a reference to the argument object;
`df = df.explode(...)` rebinds it to a freshly allocated result, or leaves it
on the argument when the `KeyError` is suppressed; then the merge runs on the
object `df` refers to. -/
def flattenColumnSt (s : Store) (dfRef : Nat) (c : String) : Store × Except PyError Nat :=
  match (s.read dfRef).explode c with
  | .ok d => flattenMergeSt (s.alloc d).1 d c
  | .error _ => flattenMergeSt s (s.read dfRef) c

/-! ## Definitions taken from the specification's words

These are written from the specification's phrasing, to be compared with the
embedded source functions above. -/

/-- Specification-side: the named parameters that are present (non-absent),
in the order supplied. -/
def presentParams : List (String × Option PyVal) → List (String × PyVal)
  | [] => []
  | (k, some v) :: ps => (k, v) :: presentParams ps
  | (_, none) :: ps => presentParams ps

/-- Specification-side: elements joined with `;` in sequence order. -/
def joinSemi : List String → String
  | [] => ""
  | [x] => x
  | x :: xs => x ++ ";" ++ joinSemi xs

/-- Specification-side: the calendar date (year, month, day) a date-like
input denotes, whatever its representation. -/
def calendarDate : DateLike → Nat × Nat × Nat
  | .dateString y m d => (y, m, d)
  | .dateObject y m d => (y, m, d)
  | .timestampString t => (t.year, t.month, t.day)
  | .timestampObject t => (t.year, t.month, t.day)

/-- Specification-side: a calendar date written in `YYYY-MM-DD` form. -/
def ymdForm : Nat × Nat × Nat → String
  | (y, m, d) => padNum 4 y ++ "-" ++ padNum 2 m ++ "-" ++ padNum 2 d

/-- Specification-side: the records a target-column cell stands for — the
elements of a list cell, or the scalar object itself. -/
def cellRecords : Cell → List Cell
  | .list xs => xs
  | c => [c]

/-- Specification-side: the number of output rows a target-column cell is
claimed to produce — the length of a list, 1 for a scalar object. -/
def cellCount : Cell → Nat
  | .list xs => xs.length
  | _ => 1

/-- A well-shaped target-column cell for flattening: a nonempty list of
objects. A bare scalar object is not well shaped — `explode` iterates a
mapping into its key strings, so the merge step no longer sees the object's
fields; an empty list is not well shaped either — `explode` leaves a
missing-value placeholder row for it. -/
def goodCell : Cell → Bool
  | .list xs => !xs.isEmpty && xs.all Cell.isObj
  | _ => false

/-- Specification-side: the records of the target column (at position `i`)
of all rows, in row order — the elements the claims say become one output
row each. -/
def flattenedRecords (df : DF) (i : Nat) : List Cell :=
  df.rows.flatMap (fun r => cellRecords (r.getD i .nan))

/-- Specification-side: the rows the claims describe for the flattened
table — for each input row, one output row per record of its target-column
cell, sharing the row's untouched column values (`dropRowCol`) and carrying
that record's own fields (`renderRecord` over the collected keys). -/
def specFlattenRows (df : DF) (c : String) (i : Nat) : List (List Cell) :=
  df.rows.flatMap (fun r =>
    (cellRecords (r.getD i .nan)).map
      (fun o => dropRowCol df.cols c r ++ renderRecord (recordKeys (flattenedRecords df i)) o))

/-- A concrete air-quality-index style table with one list-of-records row
and one row whose `aqis` cell is a bare scalar object; `explode` iterates
the bare object into its key string, so flattening this table fails in
`from_records`. -/
def aqisExample : DF :=
  ⟨["component", "aqis"],
   [[.scalar "NO2", .list [.obj [("value", .scalar "1")], .obj [("value", .scalar "2")]]],
    [.scalar "SO2", .obj [("value", .scalar "3")]]]⟩

/-- A concrete well-shaped table: every `aqis` cell is a nonempty list of
records (two elements in the first row, one in the second). -/
def goodExample : DF :=
  ⟨["component", "aqis"],
   [[.scalar "NO2", .list [.obj [("value", .scalar "1")], .obj [("value", .scalar "2")]]],
    [.scalar "SO2", .list [.obj [("value", .scalar "3")]]]]⟩

/-! ## Helper lemmas -/

theorem cellRecords_length (x : Cell) : (cellRecords x).length = cellCount x := by
  cases x <;> rfl

theorem explodeCell_eq_cellRecords (x : Cell) (h : goodCell x = true) :
    explodeCell x = cellRecords x := by
  cases x with
  | nan => exact Bool.noConfusion h
  | scalar s => exact Bool.noConfusion h
  | obj fs => exact Bool.noConfusion h
  | list xs =>
    cases xs with
    | nil => exact Bool.noConfusion h
    | cons y ys => rfl

theorem mem_cellRecords_isObj (x o : Cell) (h : goodCell x = true)
    (hm : o ∈ cellRecords x) : o.isObj = true := by
  cases x with
  | nan => exact Bool.noConfusion h
  | scalar s => exact Bool.noConfusion h
  | obj fs => exact Bool.noConfusion h
  | list xs =>
    have h2 := (Bool.and_eq_true _ _).mp h
    exact List.all_eq_true.mp h2.2 o hm

theorem length_flatMap (l : List α) (f : α → List β) :
    (l.flatMap f).length = (l.map (fun a => (f a).length)).sum := by
  induction l with
  | nil => rfl
  | cons a l ih => simp [List.flatMap_cons, ih]

theorem zipWith_self (f : α → α → β) (l : List α) :
    List.zipWith f l l = l.map (fun a => f a a) := by
  induction l with
  | nil => rfl
  | cons a l ih => simp [ih]

theorem zipWith_flatMap_same (f : β → γ → δ) (g₁ : α → List β) (g₂ : α → List γ)
    (l : List α) (h : ∀ a ∈ l, (g₁ a).length = (g₂ a).length) :
    List.zipWith f (l.flatMap g₁) (l.flatMap g₂)
      = l.flatMap (fun a => List.zipWith f (g₁ a) (g₂ a)) := by
  induction l with
  | nil => rfl
  | cons a l ih =>
    rw [List.flatMap_cons, List.flatMap_cons, List.flatMap_cons,
      List.zipWith_append _ _ _ _ _ (h a (List.mem_cons_self a l)),
      ih (fun x hx => h x (List.mem_cons_of_mem a hx))]

theorem dropRowCol_cons (k : String) (ks : List String) (c : String) (x : Cell)
    (xs : List Cell) :
    dropRowCol (k :: ks) c (x :: xs)
      = if k != c then x :: dropRowCol ks c xs else dropRowCol ks c xs := by
  unfold dropRowCol
  rw [List.zip_cons_cons, List.filter_cons]
  by_cases h : (k != c) = true
  · rw [if_pos h, if_pos h, List.map_cons]
  · rw [if_neg h, if_neg h]

theorem dropRowCol_set (c : String) : ∀ (cols : List String) (r : List Cell) (i : Nat)
    (o : Cell), ∀ h : i < cols.length, cols[i] = c →
    dropRowCol cols c (r.set i o) = dropRowCol cols c r
  | [], r, i, o, h, _ => absurd h (Nat.not_lt_zero i)
  | k :: ks, [], i, o, h, hc => by rw [List.set_nil]
  | k :: ks, x :: xs, 0, o, h, hc => by
    have hk : k = c := hc
    subst hk
    rw [List.set_cons_zero, dropRowCol_cons, dropRowCol_cons, if_neg, if_neg]
    · simp
    · simp
  | k :: ks, x :: xs, i + 1, o, h, hc => by
    have h2 : i < ks.length := Nat.lt_of_succ_lt_succ h
    have hks : ks[i] = c := hc
    rw [List.set_cons_succ, dropRowCol_cons, dropRowCol_cons,
      dropRowCol_set c ks xs i o (Nat.lt_of_succ_lt_succ h) hks]

theorem getD_set_self (r : List Cell) (i : Nat) (e : Cell) (h : i < r.length) :
    (r.set i e).getD i .nan = e := by
  rw [List.getD_eq_getElem?_getD, List.getElem?_set_self h, Option.getD_some]

theorem padRows_of_length_eq (n w : Nat) (rows : List (List Cell))
    (h : rows.length = n) : padRows n w rows = rows := by
  unfold padRows
  rw [h, Nat.sub_self, List.replicate_zero, List.append_nil]

theorem hconcat_of_length_eq (a b : DF) (h : a.rows.length = b.rows.length) :
    a.hconcat b = ⟨a.cols ++ b.cols, a.rows.zipWith (· ++ ·) b.rows⟩ := by
  unfold DF.hconcat
  simp only []
  rw [h, Nat.max_self, padRows_of_length_eq _ _ _ h, padRows_of_length_eq _ _ _ rfl]

theorem pd_from_records_all_obj (records : List Cell)
    (h : records.all Cell.isObj = true) :
    pd_from_records records
      = .ok ⟨recordKeys records, records.map (renderRecord (recordKeys records))⟩ := by
  cases records with
  | nil => rfl
  | cons r0 rs =>
    have h0 : r0.isObj = true := by
      rw [List.all_cons] at h
      exact ((Bool.and_eq_true _ _).mp h).1
    simp only [pd_from_records, if_pos h0, if_pos h]

theorem pd_from_records_not_http (records : List Cell) :
    isHttpFailure (pd_from_records records) = false := by
  unfold pd_from_records
  cases records with
  | nil => rfl
  | cons r0 rs =>
    simp only []
    by_cases h0 : r0.isObj = true
    · rw [if_pos h0]
      by_cases hall : (r0 :: rs).all Cell.isObj = true
      · rw [if_pos hall]
        rfl
      · rw [if_neg hall]
        rfl
    · rw [if_neg h0]
      cases r0 <;> rfl

theorem contains_eq_isSome_findIdx (l : List String) (c : String) :
    l.contains c = (l.findIdx? (fun k => k == c)).isSome := by
  rw [List.findIdx?_isSome, List.contains_eq_any_beq]
  induction l with
  | nil => rfl
  | cons a l ih => simp only [List.any_cons, ih, Bool.beq_comm]

theorem filterMap_present (ps : List (String × Option PyVal)) :
    ps.filterMap (fun kv => kv.2.map (fun v => kv.1 ++ "=" ++ v.toStr))
      = (presentParams ps).map (fun kv => kv.1 ++ "=" ++ kv.2.toStr) := by
  induction ps with
  | nil => rfl
  | cons kv ps ih =>
    obtain ⟨k, v⟩ := kv
    cases v <;> simp only [List.filterMap_cons, Option.map_none', Option.map_some',
      presentParams, ih, List.map_cons]

theorem stringify_present (ps : List (String × Option PyVal)) :
    _stringify ps
      = String.intercalate "&" ((presentParams ps).map (fun kv => kv.1 ++ "=" ++ kv.2.toStr)) := by
  unfold _stringify
  rw [filterMap_present]

theorem intercalate_go_prepend (s : String) (l : List String) (a b : String) :
    String.intercalate.go (a ++ b) s l = a ++ String.intercalate.go b s l := by
  induction l generalizing b with
  | nil => rfl
  | cons x l ih =>
    show String.intercalate.go (a ++ b ++ s ++ x) s l
        = a ++ String.intercalate.go (b ++ s ++ x) s l
    rw [show a ++ b ++ s ++ x = a ++ (b ++ s ++ x) by
      rw [String.append_assoc a b s, String.append_assoc a (b ++ s) x]]
    exact ih (b ++ s ++ x)

theorem intercalate_cons_cons (s a b : String) (t : List String) :
    String.intercalate s (a :: b :: t) = a ++ s ++ String.intercalate s (b :: t) := by
  show String.intercalate.go ((a ++ s) ++ b) s t = (a ++ s) ++ String.intercalate.go b s t
  exact intercalate_go_prepend s t (a ++ s) b

theorem intercalate_semi_eq_joinSemi (cs : List String) :
    String.intercalate ";" cs = joinSemi cs := by
  induction cs with
  | nil => rfl
  | cons c cs ih =>
    cases cs with
    | nil => rfl
    | cons c' cs' => rw [intercalate_cons_cons, ih]; rfl

/-- Central computation: on a table whose columns are unique, whose rows are
aligned with the columns, whose target column sits at position `i`, and whose
target-column cells are all well shaped (a scalar object or a nonempty list
of objects), the flatten operation succeeds and returns exactly the table the
specification describes: the untouched columns followed by the records' keys,
and one row per record, each row being its source row's untouched cells
followed by its record's rendered fields. -/
theorem flatten_good_eq (df : DF) (c : String) (i : Nat)
    (hWF : ∀ r ∈ df.rows, r.length = df.cols.length)
    (_hnd : df.cols.Nodup)
    (hi : df.cols.findIdx? (fun k => k == c) = some i)
    (hgood : ∀ r ∈ df.rows, goodCell (r.getD i .nan) = true) :
    _flatten_column df c
      = .ok ⟨df.cols.filter (fun k => k != c) ++ recordKeys (flattenedRecords df i),
             specFlattenRows df c i⟩ := by
  have hisome := contains_eq_isSome_findIdx df.cols c
  have hcontains : df.cols.contains c = true := by
    rw [hisome, hi]
    rfl
  obtain ⟨hilen, hp, -⟩ := List.findIdx?_eq_some_iff_getElem.mp hi
  have hci : df.cols[i] = c := eq_of_beq hp
  have hexp : _flatten_column df c
      = flattenConcat
          ⟨df.cols, df.rows.flatMap
            (fun r => (explodeCell (r.getD i .nan)).map (fun e => r.set i e))⟩ c := by
    simp only [_flatten_column, DF.explode, hi]
  set rows1 := df.rows.flatMap
    (fun r => (explodeCell (r.getD i .nan)).map (fun e => r.set i e)) with hrows1
  have hset : ∀ r ∈ df.rows,
      ((explodeCell (r.getD i .nan)).map (fun e => r.set i e)).map
        (fun rr => rr.getD i .nan) = cellRecords (r.getD i .nan) := by
    intro r hr
    have hrl : i < r.length := by
      rw [hWF r hr]
      exact hilen
    have hid : ∀ e, ((fun rr => List.getD rr i Cell.nan) ∘ (fun e => r.set i e)) e = e :=
      fun e => getD_set_self r i e hrl
    rw [List.map_map, List.map_id'' hid, explodeCell_eq_cellRecords _ (hgood r hr)]
  have hcells : rows1.map (fun rr => rr.getD i .nan) = flattenedRecords df i := by
    rw [hrows1]
    unfold flattenedRecords
    rw [List.map_flatMap, List.flatMap_def, List.flatMap_def]
    exact congrArg List.flatten (List.map_congr_left hset)
  have hall : (flattenedRecords df i).all Cell.isObj = true := by
    rw [List.all_eq_true]
    intro o ho
    obtain ⟨r, hr, hmo⟩ := List.mem_flatMap.mp ho
    exact mem_cellRecords_isObj _ o (hgood r hr) hmo
  have hdrop : (DF.mk df.cols rows1).drop c
      = .ok ⟨df.cols.filter (fun k => k != c), rows1.map (dropRowCol df.cols c)⟩ := by
    simp only [DF.drop, hcontains, if_true]
  have hget : (DF.mk df.cols rows1).getCol c
      = .ok (rows1.map (fun rr => rr.getD i .nan)) := by
    simp only [DF.getCol, hi]
  have hrecs : pd_from_records (flattenedRecords df i)
      = .ok ⟨recordKeys (flattenedRecords df i),
             (flattenedRecords df i).map (renderRecord (recordKeys (flattenedRecords df i)))⟩ :=
    pd_from_records_all_obj (flattenedRecords df i) hall
  have hlen : (rows1.map (dropRowCol df.cols c)).length
      = ((flattenedRecords df i).map
          (renderRecord (recordKeys (flattenedRecords df i)))).length := by
    rw [List.length_map, List.length_map, ← hcells, List.length_map]
  rw [hexp]
  unfold flattenConcat
  rw [hdrop]
  simp only []
  rw [hget, hcells]
  simp only []
  rw [hrecs]
  simp only []
  rw [hconcat_of_length_eq _ _ hlen]
  refine congrArg Except.ok (congrArg (DF.mk _) ?_)
  unfold specFlattenRows
  generalize recordKeys (flattenedRecords df i) = ks
  rw [← hcells, List.map_map,
    List.zipWith_map (fun (a b : List Cell) => a ++ b) (dropRowCol df.cols c) _ rows1 rows1,
    zipWith_self, hrows1, List.map_flatMap, List.flatMap_def, List.flatMap_def]
  refine congrArg List.flatten (List.map_congr_left ?_)
  intro r hr
  rw [List.map_map, explodeCell_eq_cellRecords _ (hgood r hr)]
  refine List.map_congr_left ?_
  intro o ho
  show dropRowCol df.cols c (r.set i o) ++ renderRecord ks ((r.set i o).getD i .nan)
      = dropRowCol df.cols c r ++ renderRecord ks o
  rw [dropRowCol_set c df.cols r i o hilen hci,
    getD_set_self r i o (by rw [hWF r hr]; exact hilen)]

/-! ## Claims -/

/-- C1 (amended): for every table in which the named target column does not
exist, `_flatten_column` is not a no-op but raises `KeyError`: the `KeyError`
of the explode step is suppressed by the `try`/`except`, but the
`df.drop(column, axis="columns")` that follows runs outside it and raises. -/
theorem flatten_absent_column_raises (df : DF) (c : String)
    (h : df.cols.contains c = false) :
    _flatten_column df c = .error (.keyError c) := by
  have hfind : df.cols.findIdx? (fun k => k == c) = none := by
    have h2 := contains_eq_isSome_findIdx df.cols c
    rw [h] at h2
    exact Option.not_isSome_iff_eq_none.mp (by rw [← h2]; exact Bool.false_ne_true)
  simp only [_flatten_column, flattenConcat, DF.explode, hfind, DF.drop, h,
    Bool.false_eq_true, if_false]

/-- Witness for C1: the motivating input — an empty table with no columns at
all, as decoded from an empty JSON result — indeed lacks the column and makes
the operation raise. -/
theorem flatten_absent_column_raises_witness :
    (DF.cols ⟨[], []⟩).contains "values" = false
    ∧ _flatten_column ⟨[], []⟩ "values" = .error (.keyError "values") :=
  ⟨rfl, flatten_absent_column_raises ⟨[], []⟩ "values" rfl⟩

/-- Counterexample to C1 as stated: on the empty table (no rows, no columns)
the flatten operation does not return the table unchanged — it fails with a
`KeyError` for the missing column. -/
theorem flatten_absent_column_noop_refuted :
    _flatten_column ⟨[], []⟩ "values" = .error (.keyError "values")
    ∧ ¬ _flatten_column ⟨[], []⟩ "values" = .ok ⟨[], []⟩ := by
  refine ⟨rfl, fun h => ?_⟩
  rw [show _flatten_column ⟨[], []⟩ "values" = .error (.keyError "values") from rfl] at h
  exact Except.noConfusion h

/-- C2 (amended): for every table containing the target column (at position
`i`, columns unique, rows aligned) in which every target-column cell is a
nonempty list of objects, flattening drops no rows: the output is exactly
one row per list element — a row whose cell is a list of length N ≥ 1
produces N rows, each output row sharing its source row's untouched column
values and carrying exactly one distinct element's fields — and the output
row count is the sum over rows of the cells' record counts. Rows holding an
empty list or a bare scalar object are excluded: an empty list explodes to
one missing-value placeholder row (not zero rows), a bare object is iterated
by explode into its key strings rather than kept as a record, and in both
cases the merge step then fails, as the counterexample shows. -/
theorem flatten_rowcount_explode (df : DF) (c : String) (i : Nat)
    (hWF : ∀ r ∈ df.rows, r.length = df.cols.length)
    (hnd : df.cols.Nodup)
    (hi : df.cols.findIdx? (fun k => k == c) = some i)
    (hgood : ∀ r ∈ df.rows, goodCell (r.getD i .nan) = true) :
    _flatten_column df c
      = .ok ⟨df.cols.filter (fun k => k != c) ++ recordKeys (flattenedRecords df i),
             specFlattenRows df c i⟩
    ∧ (specFlattenRows df c i).length
        = (df.rows.map (fun r => cellCount (r.getD i .nan))).sum := by
  refine ⟨flatten_good_eq df c i hWF hnd hi hgood, ?_⟩
  unfold specFlattenRows
  rw [length_flatMap]
  refine congrArg List.sum (List.map_congr_left ?_)
  intro r _
  rw [List.length_map, cellRecords_length]

/-- Witness for C2: on the concrete well-shaped table the hypotheses hold
and the flattened row count is the sum of the per-row record counts
(2 + 1 = 3). -/
theorem flatten_rowcount_explode_witness :
    (∀ r ∈ goodExample.rows, r.length = goodExample.cols.length)
    ∧ goodExample.cols.Nodup
    ∧ goodExample.cols.findIdx? (fun k => k == "aqis") = some 1
    ∧ (∀ r ∈ goodExample.rows, goodCell (r.getD 1 .nan) = true)
    ∧ (specFlattenRows goodExample "aqis" 1).length
        = (goodExample.rows.map (fun r => cellCount (r.getD 1 .nan))).sum :=
  ⟨by decide, by decide, rfl, by decide,
   (flatten_rowcount_explode goodExample "aqis" 1 (by decide) (by decide) rfl
      (by decide)).2⟩

/-- Counterexample to C2 as stated. A row whose target-column cell is an
empty list (N = 0) does not produce 0 output rows: explode leaves a
missing-value placeholder row, whose lack of `.keys` makes the `from_records`
merge raise `AttributeError`, so the operation fails instead of returning a
table with 1 + 0 rows. And a row whose cell is a bare scalar object does not
produce 1 row carrying the object's fields: explode iterates the mapping
into its key string, and the merge then raises `AttributeError` on the mixed
collection, so the operation fails instead of returning 2 + 1 rows. -/
theorem flatten_rowcount_claim_refuted :
    _flatten_column ⟨["c"], [[.list [.obj [("v", .scalar "1")]]], [.list []]]⟩ "c"
      = .error .attributeError
    ∧ _flatten_column aqisExample "aqis" = .error .attributeError :=
  ⟨rfl, rfl⟩

/-- C4 (amended): for every table containing the target column (same
well-shapedness hypotheses as C2: every target-column cell a nonempty list
of objects), provided none of the nested objects' own keys is the target
column's name, the flattened table has no column named after the original
nested column: its columns are the untouched columns followed by the nested
objects' keys as new top-level columns, aligned to rows by position. -/
theorem flatten_column_replaced_by_fields (df : DF) (c : String) (i : Nat)
    (hWF : ∀ r ∈ df.rows, r.length = df.cols.length)
    (hnd : df.cols.Nodup)
    (hi : df.cols.findIdx? (fun k => k == c) = some i)
    (hgood : ∀ r ∈ df.rows, goodCell (r.getD i .nan) = true)
    (hkeys : ∀ k ∈ recordKeys (flattenedRecords df i), ¬ k = c) :
    _flatten_column df c
      = .ok ⟨df.cols.filter (fun k => k != c) ++ recordKeys (flattenedRecords df i),
             specFlattenRows df c i⟩
    ∧ ¬ c ∈ df.cols.filter (fun k => k != c) ++ recordKeys (flattenedRecords df i) := by
  refine ⟨flatten_good_eq df c i hWF hnd hi hgood, fun hmem => ?_⟩
  rcases List.mem_append.mp hmem with hmf | hmk
  · have hne := List.of_mem_filter hmf
    simp at hne
  · exact hkeys c hmk rfl

/-- Witness for C4: on the concrete well-shaped table the nested keys are
`["value"]`, so the flattened columns no longer contain `aqis`. -/
theorem flatten_column_replaced_by_fields_witness :
    recordKeys (flattenedRecords goodExample 1) = ["value"]
    ∧ ¬ "aqis" ∈ goodExample.cols.filter (fun k => k != "aqis")
        ++ recordKeys (flattenedRecords goodExample 1) :=
  ⟨rfl,
   (flatten_column_replaced_by_fields goodExample "aqis" 1 (by decide) (by decide) rfl
      (by decide) (by decide)).2⟩

/-- Counterexample to C4 as stated: when a nested object's own key equals
the target column's name, that name reappears as a column of the flattened
table — flattening the one-column table whose single cell is the one-element
list `[{"c": "1"}]` over column `"c"` yields a table whose column list is
again `["c"]` (explode unwraps the list to the record, and `from_records`
rebuilds a column `"c"` from the record's key). -/
theorem flatten_key_collision_keeps_column_name :
    _flatten_column ⟨["c"], [[.list [.obj [("c", .scalar "1")]]]]⟩ "c"
      = .ok ⟨["c"], [[.scalar "1"]]⟩
    ∧ "c" ∈ DF.cols ⟨["c"], [[.scalar "1"]]⟩ :=
  ⟨rfl, by decide⟩

/-- C3: the generated query string is exactly the `name=value` pairs of the
present (non-absent) parameters, joined by `&` in the order supplied — absent
parameters contribute nothing, with no empty slot and no stray `&`; in
particular station lookup with only `area="bergen"` yields `area=bergen`. -/
theorem stringify_present_params_order :
    (∀ ps : List (String × Option PyVal),
      _stringify ps = String.intercalate "&"
        ((presentParams ps).map (fun kv => kv.1 ++ "=" ++ kv.2.toStr)))
    ∧ get_stations_query (some "bergen") none = "area=bergen" :=
  ⟨stringify_present, rfl⟩

/-- C6: the `components` parameter of the observations call serializes an
ordered sequence of component names by joining them with `;` in sequence
order; in particular `["NOx", "PM10"]` serializes to `"NOx;PM10"`. -/
theorem components_joined_semicolon :
    (∀ cs : List String, obs_components_param (some cs) = some (.str (joinSemi cs)))
    ∧ obs_components_param (some ["NOx", "PM10"]) = some (.str "NOx;PM10") :=
  ⟨fun cs => by rw [obs_components_param, Option.map_some', intercalate_semi_eq_joinSemi],
   rfl⟩

/-- C9: only `None` is omitted from the query string — any present value,
including falsy ones, is emitted as `name=value` in its Python string form:
`utd=False` emits `"utd=False"`, `0` emits `"n=0"`, the empty string emits
`"s="`, and an empty components sequence joins to the empty string, so the
observations call emits `"components="` rather than omitting the parameter. -/
theorem falsy_values_not_omitted :
    (∀ (k : String) (v : PyVal), _stringify [(k, some v)] = k ++ "=" ++ v.toStr)
    ∧ get_stations_query none (some false) = "utd=False"
    ∧ _stringify [("n", some (.int 0))] = "n=0"
    ∧ _stringify [("s", some (.str ""))] = "s="
    ∧ get_observations_query (some []) none = "components=" :=
  ⟨fun _ _ => rfl, rfl, rfl, rfl, rfl⟩

/-- C10: the query-string builder depends on nothing besides the present
name/value pairs and their order — two parameter mappings agreeing on their
non-absent entries (in order) produce identical query strings, so a parameter
supplied as `None` is indistinguishable from one not supplied at all. -/
theorem stringify_depends_only_on_present (ps₁ ps₂ : List (String × Option PyVal))
    (h : presentParams ps₁ = presentParams ps₂) :
    _stringify ps₁ = _stringify ps₂ := by
  rw [stringify_present, stringify_present, h]

/-- Witness for C10: supplying `utd=None` explicitly gives the same query
string as not supplying `utd` at all. -/
theorem stringify_depends_only_on_present_witness :
    presentParams [("area", some (.str "bergen")), ("utd", none)]
        = presentParams [("area", some (.str "bergen"))]
    ∧ _stringify [("area", some (.str "bergen")), ("utd", none)]
        = _stringify [("area", some (.str "bergen"))] :=
  ⟨rfl, stringify_depends_only_on_present _ _ rfl⟩

/-- C5: for every date-like input representation (date string, date object,
or a full timestamp with a time of day) within the `pandas.Timestamp` range,
the two date segments of the observations path are exactly the calendar date
in `YYYY-MM-DD` form, regardless of the representation — a time of day
collapses to just the date. -/
theorem observations_path_dates_ymd (f t : DateLike) (st : String)
    (_hf : (to_datetime f).inPandasBounds) (_ht : (to_datetime t).inPandasBounds) :
    get_observations_path f t st
      = "obs/historical/" ++ ymdForm (calendarDate f) ++ "/"
        ++ ymdForm (calendarDate t) ++ "/" ++ st := by
  cases f <;> cases t <;> rfl

/-- Witness for C5: a timestamp carrying a time of day and a plain date
string both collapse to their `YYYY-MM-DD` segments. -/
theorem observations_path_dates_ymd_witness :
    (to_datetime (.timestampObject ⟨2021, 5, 1, 18, 30, 0⟩)).inPandasBounds
    ∧ (to_datetime (.dateString 2021 5 2)).inPandasBounds
    ∧ get_observations_path (.timestampObject ⟨2021, 5, 1, 18, 30, 0⟩)
        (.dateString 2021 5 2) "all"
      = "obs/historical/"
          ++ ymdForm (calendarDate (.timestampObject ⟨2021, 5, 1, 18, 30, 0⟩)) ++ "/"
          ++ ymdForm (calendarDate (.dateString 2021 5 2)) ++ "/" ++ "all" :=
  ⟨by exact ⟨by decide, by decide⟩, by exact ⟨by decide, by decide⟩,
   observations_path_dates_ymd _ _ "all" ⟨by decide, by decide⟩ ⟨by decide, by decide⟩⟩

/-- The flatten operation never raises an `HTTPError` of its own: its only
failures are the `KeyError` of `drop` / column selection and the `TypeError`
of `from_records`. -/
theorem flattenConcat_not_httpFailure (df1 : DF) (c : String) :
    isHttpFailure (flattenConcat df1 c) = false := by
  unfold flattenConcat
  cases hdrop : df1.drop c with
  | error e =>
    unfold DF.drop at hdrop
    by_cases hc : df1.cols.contains c = true
    · rw [if_pos hc] at hdrop
      exact Except.noConfusion hdrop
    · rw [if_neg hc] at hdrop
      cases hdrop
      rfl
  | ok left =>
    simp only []
    cases hget : df1.getCol c with
    | error e =>
      unfold DF.getCol at hget
      cases hfi : df1.cols.findIdx? (fun k => k == c) with
      | none =>
        rw [hfi] at hget
        cases hget
        rfl
      | some i =>
        rw [hfi] at hget
        exact Except.noConfusion hget
    | ok cells =>
      simp only []
      cases hrec : pd_from_records cells with
      | error e =>
        have h2 := pd_from_records_not_http cells
        rw [hrec] at h2
        exact h2
      | ok right => rfl

/-- Like `flattenConcat_not_httpFailure`, for the whole flatten operation. -/
theorem flatten_not_httpFailure (df : DF) (c : String) :
    isHttpFailure (_flatten_column df c) = false :=
  flattenConcat_not_httpFailure _ c

/-- C7 (amended): every public operation fails with an `HTTPError` exactly
when the response status is a client or server error (4xx or 5xx, which is
what `raise_for_status` checks — not every non-2xx status), propagated with
its status untranslated and unretried; given a well-formed JSON body (an
array of objects), the four non-flattening operations have no other failure
mode, while the two flattening operations (air-quality index, observations)
can additionally fail with the flattener's own `KeyError`/`TypeError`, which
is never an `HTTPError`. -/
theorem http_error_iff_4xx_5xx (r : HttpResponse)
    (hbody : r.body.all Cell.isObj = true) :
    ((400 ≤ r.status ∧ r.status < 600) →
      get_areas_resp r = .error (.httpError r.status)
      ∧ get_stations_resp r = .error (.httpError r.status)
      ∧ get_components_resp r = .error (.httpError r.status)
      ∧ get_timeseries_resp r = .error (.httpError r.status)
      ∧ get_air_quality_index_resp r = .error (.httpError r.status)
      ∧ get_observations_resp r = .error (.httpError r.status))
    ∧ (isHttpFailure (get_areas_resp r) = true ↔ (400 ≤ r.status ∧ r.status < 600))
    ∧ (isHttpFailure (get_stations_resp r) = true ↔ (400 ≤ r.status ∧ r.status < 600))
    ∧ (isHttpFailure (get_components_resp r) = true ↔ (400 ≤ r.status ∧ r.status < 600))
    ∧ (isHttpFailure (get_timeseries_resp r) = true ↔ (400 ≤ r.status ∧ r.status < 600))
    ∧ (isHttpFailure (get_air_quality_index_resp r) = true ↔ (400 ≤ r.status ∧ r.status < 600))
    ∧ (isHttpFailure (get_observations_resp r) = true ↔ (400 ≤ r.status ∧ r.status < 600))
    ∧ ((get_areas_resp r).isOk = true ↔ ¬(400 ≤ r.status ∧ r.status < 600))
    ∧ ((get_stations_resp r).isOk = true ↔ ¬(400 ≤ r.status ∧ r.status < 600))
    ∧ ((get_components_resp r).isOk = true ↔ ¬(400 ≤ r.status ∧ r.status < 600))
    ∧ ((get_timeseries_resp r).isOk = true ↔ ¬(400 ≤ r.status ∧ r.status < 600)) := by
  by_cases h4 : 400 ≤ r.status ∧ r.status < 600
  · have hurl : _get_url r = .error (.httpError r.status) := by
      simp only [_get_url, raise_for_status, if_pos h4]
    simp only [get_areas_resp, get_stations_resp, get_components_resp, get_timeseries_resp,
      get_air_quality_index_resp, get_observations_resp, hurl, isHttpFailure, Except.isOk,
      Except.toBool]
    simp [h4]
  · have hurl : _get_url r
        = .ok ⟨recordKeys r.body, r.body.map (renderRecord (recordKeys r.body))⟩ := by
      simp only [_get_url, raise_for_status, if_neg h4,
        pd_from_records_all_obj r.body hbody]
    simp only [get_areas_resp, get_stations_resp, get_components_resp, get_timeseries_resp,
      get_air_quality_index_resp, get_observations_resp, hurl]
    refine ⟨fun h => absurd h h4, ?_, ?_, ?_, ?_, ?_, ?_, ?_, ?_, ?_, ?_⟩
    · simp [isHttpFailure, h4]
    · simp [isHttpFailure, h4]
    · simp [isHttpFailure, h4]
    · simp [isHttpFailure, h4]
    · rw [flatten_not_httpFailure]
      simp [h4]
    · rw [flatten_not_httpFailure]
      simp [h4]
    · simp [Except.isOk, Except.toBool, h4]
    · simp [Except.isOk, Except.toBool, h4]
    · simp [Except.isOk, Except.toBool, h4]
    · simp [Except.isOk, Except.toBool, h4]

/-- Witness for C7: a 404 response makes an operation fail with the
propagated `HTTPError` carrying that status. -/
theorem http_error_iff_4xx_5xx_witness :
    (([] : List Cell).all Cell.isObj = true)
    ∧ get_areas_resp ⟨404, []⟩ = .error (.httpError 404) :=
  ⟨rfl, ((http_error_iff_4xx_5xx ⟨404, []⟩ rfl).1 (by constructor <;> decide)).1⟩

/-- Counterexample to C7 as stated: a 304 response is non-2xx yet raises no
`HTTPError` (the table is returned), and the observations operation can fail
without any HTTP error at all — a 200 response whose body is an empty result
set makes its flattening step raise `KeyError`, a failure mode of its own. -/
theorem http_error_not_iff_non2xx :
    get_areas_resp ⟨304, []⟩ = .ok ⟨[], []⟩
    ∧ get_observations_resp ⟨200, []⟩ = .error (.keyError "values") :=
  ⟨rfl, rfl⟩

theorem Store.length_alloc (s : Store) (d : DF) :
    (s.alloc d).1.frames.length = s.frames.length + 1 := by
  simp [Store.alloc]

theorem Store.read_alloc_self (s : Store) (d : DF) :
    (s.alloc d).1.read (s.alloc d).2 = d := by
  simp [Store.alloc, Store.read, List.getD_eq_getElem?_getD, List.getElem?_concat_length]

theorem Store.read_alloc_lt (s : Store) (d : DF) (j : Nat) (h : j < s.frames.length) :
    (s.alloc d).1.read j = s.read j := by
  simp [Store.alloc, Store.read, List.getD_eq_getElem?_getD, List.getElem?_append_left h]

/-- The merge part of the traced `_flatten_column` only allocates:
pre-existing objects read back unchanged, the outcome agrees with the pure
`flattenConcat`, and a returned table is a fresh object. -/
theorem flattenMergeSt_spec (s : Store) (df : DF) (c : String) :
    (∀ j, j < s.frames.length → (flattenMergeSt s df c).1.read j = s.read j)
    ∧ (flattenMergeSt s df c).2.map (flattenMergeSt s df c).1.read
        = flattenConcat df c
    ∧ (∀ rr, (flattenMergeSt s df c).2 = .ok rr → s.frames.length ≤ rr) := by
  unfold flattenMergeSt flattenConcat
  cases hdrop : df.drop c with
  | error e =>
    exact ⟨fun j _ => rfl, rfl, fun rr h => Except.noConfusion h⟩
  | ok left =>
    simp only []
    cases hget : df.getCol c with
    | error e =>
      exact ⟨fun j hj => Store.read_alloc_lt s left j hj, rfl,
        fun rr h => Except.noConfusion h⟩
    | ok cells =>
      simp only []
      cases hrec : pd_from_records cells with
      | error e =>
        exact ⟨fun j hj => Store.read_alloc_lt s left j hj, rfl,
          fun rr h => Except.noConfusion h⟩
      | ok right =>
        have hleft2 : ((s.alloc left).1.alloc right).1.read (s.alloc left).2 = left := by
          rw [Store.read_alloc_lt _ right _
              (by rw [Store.length_alloc s left]; exact Nat.lt_succ_self _)]
          exact Store.read_alloc_self s left
        have hright2 : ((s.alloc left).1.alloc right).1.read ((s.alloc left).1.alloc right).2
            = right := Store.read_alloc_self _ right
        refine ⟨fun j hj => ?_, ?_, fun rr h => ?_⟩
        · unfold concatAllocSt
          rw [Store.read_alloc_lt, Store.read_alloc_lt, Store.read_alloc_lt s left j hj]
          · rw [Store.length_alloc]
            exact Nat.lt_succ_of_lt hj
          · rw [Store.length_alloc, Store.length_alloc]
            exact Nat.lt_succ_of_lt (Nat.lt_succ_of_lt hj)
        · show Except.ok (Store.read _ _) = _
          unfold concatAllocSt
          rw [Store.read_alloc_self, hleft2, hright2]
        · cases h
          show s.frames.length ≤ (concatAllocSt _ _ _).2
          unfold concatAllocSt
          show s.frames.length ≤ ((s.alloc left).1.alloc right).1.frames.length
          rw [Store.length_alloc, Store.length_alloc]
          exact Nat.le_add_right _ 2

/-- C8: the flatten operation is pure. Traced over an explicit object store —
where every library call the source makes returns a newly allocated frame,
none being an in-place operation — the call leaves every pre-existing object,
in particular its input table, exactly as it was; its outcome is the value of
the pure function `_flatten_column` of the input's value alone; and a
returned table is a new object, not an alias of any pre-existing one. -/
theorem flatten_store_pure (s : Store) (dfRef : Nat) (c : String) :
    (∀ j, j < s.frames.length →
      (flattenColumnSt s dfRef c).1.read j = s.read j)
    ∧ (flattenColumnSt s dfRef c).2.map (flattenColumnSt s dfRef c).1.read
        = _flatten_column (s.read dfRef) c
    ∧ (∀ rr, (flattenColumnSt s dfRef c).2 = .ok rr → s.frames.length ≤ rr) := by
  unfold flattenColumnSt _flatten_column
  cases hexp : (s.read dfRef).explode c with
  | error e =>
    simp only []
    exact flattenMergeSt_spec s (s.read dfRef) c
  | ok d =>
    simp only []
    have hspec := flattenMergeSt_spec (s.alloc d).1 d c
    refine ⟨fun j hj => ?_, hspec.2.1, fun rr h => ?_⟩
    · rw [hspec.1 j (by rw [Store.length_alloc]; exact Nat.lt_succ_of_lt hj)]
      exact Store.read_alloc_lt s d j hj
    · have h2 := hspec.2.2 rr h
      rw [Store.length_alloc] at h2
      exact Nat.le_of_succ_le h2

/-- Witness for C8: on a one-object store holding a concrete table, the
traced flatten call leaves that table unchanged. -/
theorem flatten_store_pure_witness :
    0 < (Store.frames ⟨[⟨["vals"], [[.obj [("v", .scalar "1")]]]⟩]⟩).length
    ∧ (flattenColumnSt ⟨[⟨["vals"], [[.obj [("v", .scalar "1")]]]⟩]⟩ 0 "vals").1.read 0
        = Store.read ⟨[⟨["vals"], [[.obj [("v", .scalar "1")]]]⟩]⟩ 0 :=
  ⟨Nat.zero_lt_succ 0,
   (flatten_store_pure ⟨[⟨["vals"], [[.obj [("v", .scalar "1")]]]⟩]⟩ 0 "vals").1 0
     (Nat.zero_lt_succ 0)⟩

end Nilu
